import Mathlib

/-!
Shallow embedding of the ESP32 "universal storages" persistence library:
the NVS-backed small-value store (`StorageSmallAkaNVS`, from
`src/BSY_UNISTOR_a_NVS_part.h`) and the LittleFS-backed record store
(`StorageBigAkaFileSys`, from `src/BSY_UNISTOR_b_LITTLEFS_part.h`),
together with the CRC-32 framing both use.

Machine integers are modelled as `Nat`, reduced mod `2 ^ 32` exactly
where 32-bit overflow can occur; byte buffers are `List Nat` whose
elements are byte values.  The NVS namespace and the LittleFS directory
are association lists from names to byte blobs; the platform calls the
code makes (`Preferences::begin/getBytes/putBytes`, `LittleFS.open`,
`File::read/write`, `millis()`, free-space queries) are reflected as
explicit environment inputs to each operation.  `STORAGE_CHECK_OTA` is
defined by the library header, so the OTA check in `save()` is active.
-/

/-- `2 ^ 32` (as a numeral): the modulus of `uint32_t` arithmetic. -/
def U32MOD : Nat := 4294967296

/-- The C constant `UINT32_MAX` (`0xFFFFFFFF`). -/
def UINT32_MAX : Nat := 4294967295

/-- `#define NVS_MAX_SIZE 3000` from `BSY_ESP32_UniversalStorages.h`. -/
def NVS_MAX_SIZE : Nat := 3000

/-- One shift-and-conditional-xor round of the reflected CRC-32
(polynomial `0xEDB88320`), as the ESP32 ROM routine `crc32_le`
performs per bit. -/
def crc32Round (c : Nat) : Nat :=
  if c % 2 = 1 then ((c / 2) ^^^ 0xEDB88320) % U32MOD else c / 2

/-- Feed one byte into the running CRC-32 state (xor into the low
eight bits, then eight rounds). -/
def crc32FeedByte (c b : Nat) : Nat :=
  crc32Round^[8] ((c ^^^ (b % 256)) % U32MOD)

/-- The ESP32 ROM `crc32_le(init, buf, len)`: reflected CRC-32 with
initial and final complement over a byte buffer. -/
def crc32_le (init : Nat) (bytes : List Nat) : Nat :=
  (bytes.foldl crc32FeedByte ((init % U32MOD) ^^^ UINT32_MAX)) ^^^ UINT32_MAX

/-- Little-endian byte image of a `uint32_t`, as laid down in memory on
the little-endian ESP32. -/
def u32ToBytesLE (x : Nat) : List Nat :=
  [x % 256, x / 256 % 256, x / 65536 % 256, x / 16777216 % 256]

/-- Read a `uint32_t` back from four little-endian bytes at offset `i`
of a byte buffer. -/
def u32FromBytesLE (bytes : List Nat) (i : Nat) : Nat :=
  bytes.getD i 0 + 256 * bytes.getD (i + 1) 0 + 65536 * bytes.getD (i + 2) 0 +
    16777216 * bytes.getD (i + 3) 0

/-- Look up the blob stored under a name (NVS key or LittleFS path). -/
def getBlob : List (String × List Nat) → String → Option (List Nat)
  | [], _ => none
  | (k, v) :: rest, key => if k = key then some v else getBlob rest key

/-- Store a blob under a name, replacing any previous blob. -/
def setBlob : List (String × List Nat) → String → List Nat → List (String × List Nat)
  | [], key, v => [(key, v)]
  | (k, w) :: rest, key, v =>
      if k = key then (key, v) :: rest else (k, w) :: setBlob rest key v

/-- Delete the blob stored under a name. -/
def delBlob : List (String × List Nat) → String → List (String × List Nat)
  | [], _ => []
  | (k, w) :: rest, key => if k = key then rest else (k, w) :: delBlob rest key

/-- `StorageSmallAkaNVS::Package<T>` under `#pragma pack(1)`:
`uint8_t version; uint8_t reserved[3]; uint32_t crc; T data;`
serialised to its exact on-media byte image.  `save` never initialises
`reserved`, so those three stack bytes are an explicit parameter. -/
def Package.toBytes (version : Nat) (reserved : List Nat) (crc : Nat)
    (data : List Nat) : List Nat :=
  version % 256 :: reserved ++ u32ToBytesLE (crc % U32MOD) ++ data

/-- The `version` field of a packed `Package` byte image. -/
def Package.version (bytes : List Nat) : Nat := bytes.getD 0 0

/-- The `crc` field (offset 4, little-endian) of a packed `Package`
byte image. -/
def Package.crc (bytes : List Nat) : Nat := u32FromBytesLE bytes 4

/-- The `data` payload (offset 8) of a packed `Package` byte image. -/
def Package.data (bytes : List Nat) : List Nat := bytes.drop 8

/-- The per-instance state of `StorageSmallAkaNVS`: the namespace name
and the throttle fields.  The namespace contents are passed to each
operation separately, standing for the `Preferences` handle. -/
structure StorageSmallAkaNVS where
  ns : String
  minSaveInterval : Nat := 1000
  lastSaveTime : Nat := 0
  deriving DecidableEq

/-- Platform inputs consumed by one `StorageSmallAkaNVS::save` call:
whether `_prefs.begin` succeeds, whether `putBytes` completes at full
length (NVS blob writes are transactional, so a failed write leaves the
old entry), and the `millis()` reading. -/
structure NVSEnv where
  beginOk : Bool
  writeOk : Bool
  now : Nat
  deriving DecidableEq

/-- `Preferences::getBytes(key, buf, maxLen)`: yields the stored blob
when the key exists and the blob fits the buffer; otherwise it reads
nothing and returns length 0. -/
def prefsGetBytes (prefs : List (String × List Nat)) (key : String)
    (maxLen : Nat) : List Nat :=
  match getBlob prefs key with
  | none => []
  | some bs => if bs.length ≤ maxLen then bs else []

/-- The branch taken by `StorageSmallAkaNVS::load`, one constructor per
`return false` site plus success (the sites are distinguished in the
source by their log messages). -/
inductive NVSLoadResult where
  | nsOpenFail
  | sizeMismatch
  | versionMismatch
  | crcMismatch
  | ok
  deriving DecidableEq

/-- Elapsed-milliseconds computation in `StorageSmallAkaNVS::save`:
`(now >= _lastSaveTime) ? (now - _lastSaveTime)
                        : (UINT32_MAX - _lastSaveTime + now)`.
For `now, lastSaveTime < 2 ^ 32` no intermediate overflows occur, so
plain `Nat` arithmetic coincides with the `uint32_t` computation. -/
def StorageSmallAkaNVS.elapsedMs (now lastSaveTime : Nat) : Nat :=
  if lastSaveTime ≤ now then now - lastSaveTime
  else UINT32_MAX - lastSaveTime + now

/-- `StorageSmallAkaNVS::load<T>(key, data, expectedVersion)`.
`dataIn` is the caller's variable (its length is `sizeof(T)`); the
result is the branch taken, the caller's variable after the call, and
the namespace contents after the call.  The namespace is opened
read-only and the body makes no writing call, so the contents are
returned by every branch exactly as received.  `uint8_t` parameters are
truncated mod 256 at the call boundary. -/
def StorageSmallAkaNVS.load (prefs : List (String × List Nat))
    (beginOk : Bool) (key : String) (dataIn : List Nat)
    (expectedVersion : Nat) :
    NVSLoadResult × List Nat × List (String × List Nat) :=
  if beginOk = false then (.nsOpenFail, dataIn, prefs)
  else
    let pkg := prefsGetBytes prefs key (8 + dataIn.length)
    if pkg.length ≠ 8 + dataIn.length then (.sizeMismatch, dataIn, prefs)
    else if Package.version pkg ≠ expectedVersion % 256 then
      (.versionMismatch, dataIn, prefs)
    else if Package.crc pkg ≠ crc32_le 0 (Package.data pkg) then
      (.crcMismatch, dataIn, prefs)
    else (.ok, Package.data pkg, prefs)

/-- The branch taken by `StorageSmallAkaNVS::save`, one constructor per
`return false` site plus success. -/
inductive NVSSaveResult where
  | tooLarge
  | throttled
  | nsOpenFail
  | writeFail
  | ok
  deriving DecidableEq

/-- Result of a `StorageSmallAkaNVS::save` call: the branch taken, the
store instance afterwards, and the namespace contents afterwards. -/
structure NVSSaveOut where
  result : NVSSaveResult
  store : StorageSmallAkaNVS
  prefs : List (String × List Nat)
  deriving DecidableEq

/-- `StorageSmallAkaNVS::save<T>(key, data, version, force)`: size
gate against `NVS_MAX_SIZE` (`sizeof(Package<T>) = 8 + sizeof(T)`),
then, unless `force`, the throttle gate — which on passing assigns
`_lastSaveTime = now` before anything is written — then the framed
write through `putBytes`, reported as success only at full length. -/
def StorageSmallAkaNVS.save (s : StorageSmallAkaNVS)
    (prefs : List (String × List Nat)) (env : NVSEnv) (key : String)
    (data : List Nat) (version : Nat) (reserved : List Nat)
    (force : Bool) : NVSSaveOut :=
  if NVS_MAX_SIZE < 8 + data.length then ⟨.tooLarge, s, prefs⟩
  else if force = false ∧
      StorageSmallAkaNVS.elapsedMs env.now s.lastSaveTime < s.minSaveInterval then
    ⟨.throttled, s, prefs⟩
  else
    let s1 := if force then s else { s with lastSaveTime := env.now }
    let pkg := Package.toBytes version reserved (crc32_le 0 data) data
    if env.beginOk = false then ⟨.nsOpenFail, s1, prefs⟩
    else if env.writeOk then ⟨.ok, s1, setBlob prefs key pkg⟩
    else ⟨.writeFail, s1, prefs⟩

/-- The per-instance state of `StorageBigAkaFileSys<T>`: the file path,
the referenced in-memory value `_data` (as its byte image, whose length
is `sizeof(T)`), and the debounce fields.  `typeTag` identifies the
template argument `T` of this instance: instances specialised at the
same `T` share one `_otaRunning` flag (see `FSWorld.otaFlags`).
`_fsMounted` is assigned once, in the constructor, from the
`LittleFS.begin(false)` result. -/
structure StorageBigAkaFileSys where
  path : String
  data : List Nat
  intervalMs : Nat
  lastChangeTime : Nat := 0
  isDirty : Bool := false
  fsMounted : Bool := false
  debounceEnabled : Bool := true
  typeTag : Nat := 0
  deriving DecidableEq

/-- The shared pieces a record-store call touches: the LittleFS
directory contents, and the `_otaRunning` write-inhibit flags.
`_otaRunning` is an `inline static` data member of the class template
`StorageBigAkaFileSys<T>`, so C++ gives every specialisation `T` its
own flag, shared by the instances of that `T` only; `otaFlags` lists
the type tags whose flag is currently `true`. -/
structure FSWorld where
  files : List (String × List Nat)
  otaFlags : List Nat
  deriving DecidableEq

/-- `StorageBigAkaFileSys<T>::isOtaRunning()`: reads the static flag of
the specialisation identified by `typeTag`. -/
def StorageBigAkaFileSys.isOtaRunning (w : FSWorld) (typeTag : Nat) : Bool :=
  w.otaFlags.contains typeTag

/-- `StorageBigAkaFileSys<T>::setOtaRunning(state)`: writes the static
flag of the specialisation identified by `typeTag`, leaving every other
specialisation's flag unchanged. -/
def StorageBigAkaFileSys.setOtaRunning (w : FSWorld) (typeTag : Nat)
    (state : Bool) : FSWorld :=
  if state then { w with otaFlags := typeTag :: w.otaFlags }
  else { w with otaFlags := w.otaFlags.filter (fun t => t != typeTag) }

/-- Platform inputs consumed during one record-store call: the
`millis()` reading, the free-byte count LittleFS reports, whether
`LittleFS.open(path, "w")` succeeds, whether both `f.write` calls
complete at full length, and how many frame bytes land on media when
they do not. -/
structure FSEnv where
  now : Nat
  freeBytes : Nat
  openWriteOk : Bool
  writeOk : Bool
  shortLen : Nat
  deriving DecidableEq

/-- The constructor
`StorageBigAkaFileSys(path, data, intervalSec, debounceEnabled)`:
stores the path and value reference, converts the interval to
milliseconds (`uint32_t` multiplication), and samples the mount status
once via `LittleFS.begin(false)`.  No load and no file access beyond
the mount attempt happens here. -/
def StorageBigAkaFileSys.mkStore (path : String) (data : List Nat)
    (intervalSec : Nat) (debounceEnabled : Bool) (mountOk : Bool)
    (typeTag : Nat) : StorageBigAkaFileSys :=
  { path := path, data := data, intervalMs := intervalSec * 1000 % U32MOD,
    lastChangeTime := 0, isDirty := false, fsMounted := mountOk,
    debounceEnabled := debounceEnabled, typeTag := typeTag }

/-- `StorageBigAkaFileSys::hasSpace()`:
`needed = sizeof(T) + 4 + 512`, failing when the reported free bytes
fall below it. -/
def StorageBigAkaFileSys.hasSpace (sizeofT freeBytes : Nat) : Bool :=
  if freeBytes < sizeofT + 4 + 512 then false else true

/-- The frame `StorageBigAkaFileSys::save()` writes: the CRC-32 of the
payload as four little-endian bytes, then the raw payload bytes. -/
def StorageBigAkaFileSys.frameBytes (data : List Nat) : List Nat :=
  u32ToBytesLE (crc32_le 0 data) ++ data

/-- The branch taken by `StorageBigAkaFileSys::save`, one constructor
per `return false` site plus success. -/
inductive FSSaveResult where
  | blocked
  | notMounted
  | noSpace
  | openFail
  | writeError
  | ok
  deriving DecidableEq

/-- `StorageBigAkaFileSys::save()` with `STORAGE_CHECK_OTA` defined (as
the library header does): OTA gate (against this specialisation's own
`_otaRunning` flag), mount gate, space gate, open, then the two writes;
`_isDirty` is cleared only when both writes confirm full length.
`open(path, "w")` truncates, so a short write leaves the prefix that
made it to media. -/
def StorageBigAkaFileSys.save (st : StorageBigAkaFileSys) (w : FSWorld)
    (env : FSEnv) : FSSaveResult × StorageBigAkaFileSys × FSWorld :=
  if StorageBigAkaFileSys.isOtaRunning w st.typeTag then (.blocked, st, w)
  else if st.fsMounted = false then (.notMounted, st, w)
  else if StorageBigAkaFileSys.hasSpace st.data.length env.freeBytes = false then
    (.noSpace, st, w)
  else if env.openWriteOk = false then (.openFail, st, w)
  else if env.writeOk then
    let files1 := setBlob w.files st.path (StorageBigAkaFileSys.frameBytes st.data)
    (.ok, { st with isDirty := false }, { w with files := files1 })
  else
    let short := (StorageBigAkaFileSys.frameBytes st.data).take env.shortLen
    (.writeError, st, { w with files := setBlob w.files st.path short })

/-- The branch taken by `StorageBigAkaFileSys::load`, one constructor
per `return false` site plus success. -/
inductive FSLoadResult where
  | notMounted
  | notFound
  | readError
  | crcError
  | ok
  deriving DecidableEq

/-- Apply the optional reset callback, as `if (resetFunc) resetFunc(_data)`. -/
def applyReset : Option (List Nat → List Nat) → List Nat → List Nat
  | none, d => d
  | some f, d => f d

/-- `StorageBigAkaFileSys::load(resetFunc)`.  Unmounted media returns
at once, touching nothing.  After a successful open, each failure path
(file absent, short read, CRC mismatch) applies the reset callback to
the in-memory value and immediately attempts `save()`.  `f.read` into
`_data` fills as many leading bytes as the file provides, so a short
payload read leaves that prefix in the in-memory value; a short read of
the four CRC bytes short-circuits before `_data` is touched. -/
def StorageBigAkaFileSys.load (st : StorageBigAkaFileSys) (w : FSWorld)
    (env : FSEnv) (resetFunc : Option (List Nat → List Nat)) :
    FSLoadResult × StorageBigAkaFileSys × FSWorld :=
  if st.fsMounted = false then (.notMounted, st, w)
  else
    match getBlob w.files st.path with
    | none =>
        let st1 := { st with data := applyReset resetFunc st.data }
        let out := st1.save w env
        (.notFound, out.2.1, out.2.2)
    | some content =>
        if content.length < 4 then
          let st1 := { st with data := applyReset resetFunc st.data }
          let out := st1.save w env
          (.readError, out.2.1, out.2.2)
        else
          let dataRead := (content.drop 4).take st.data.length
          if dataRead.length ≠ st.data.length then
            let st1 := { st with
              data := applyReset resetFunc
                (dataRead ++ st.data.drop dataRead.length) }
            let out := st1.save w env
            (.readError, out.2.1, out.2.2)
          else if crc32_le 0 dataRead ≠ u32FromBytesLE content 0 then
            let st1 := { st with data := applyReset resetFunc dataRead }
            let out := st1.save w env
            (.crcError, out.2.1, out.2.2)
          else (.ok, { st with data := dataRead }, w)

/-- `StorageBigAkaFileSys::update()`: set `_isDirty`, stamp
`_lastChangeTime = millis()`, and, with debounce disabled, call
`save()` at once (its result is discarded). -/
def StorageBigAkaFileSys.update (st : StorageBigAkaFileSys) (w : FSWorld)
    (env : FSEnv) : StorageBigAkaFileSys × FSWorld :=
  let st1 := { st with isDirty := true, lastChangeTime := env.now }
  if st1.debounceEnabled = false then
    let out := st1.save w env
    (out.2.1, out.2.2)
  else (st1, w)

/-- Elapsed-milliseconds computation in `StorageBigAkaFileSys::tick`:
`(currentTime >= _lastChangeTime) ? (currentTime - _lastChangeTime)
                  : (UINT32_MAX - _lastChangeTime + currentTime)`. -/
def StorageBigAkaFileSys.elapsedMs (currentTime lastChangeTime : Nat) : Nat :=
  if lastChangeTime ≤ currentTime then currentTime - lastChangeTime
  else UINT32_MAX - lastChangeTime + currentTime

/-- `StorageBigAkaFileSys::tick()`: no-op unless debounce is enabled
and the value is dirty; past the interval it calls `save()` (result
discarded). -/
def StorageBigAkaFileSys.tick (st : StorageBigAkaFileSys) (w : FSWorld)
    (env : FSEnv) : StorageBigAkaFileSys × FSWorld :=
  if st.debounceEnabled = false ∨ st.isDirty = false then (st, w)
  else if st.intervalMs ≤ StorageBigAkaFileSys.elapsedMs env.now st.lastChangeTime then
    let out := st.save w env
    (out.2.1, out.2.2)
  else (st, w)

/-- `StorageBigAkaFileSys::flush()`: when dirty, return `save()`'s
verdict; when clean, return `true` without touching anything. -/
def StorageBigAkaFileSys.flush (st : StorageBigAkaFileSys) (w : FSWorld)
    (env : FSEnv) : Bool × StorageBigAkaFileSys × FSWorld :=
  if st.isDirty then
    let out := st.save w env
    (out.1 == .ok, out.2.1, out.2.2)
  else (true, st, w)

/-- `StorageBigAkaFileSys::remove()`: fails when unmounted; otherwise
`LittleFS.remove(path)`, which succeeds exactly when the file exists,
and on success `_isDirty` is cleared. -/
def StorageBigAkaFileSys.remove (st : StorageBigAkaFileSys) (w : FSWorld) :
    Bool × StorageBigAkaFileSys × FSWorld :=
  if st.fsMounted = false then (false, st, w)
  else
    match getBlob w.files st.path with
    | none => (false, st, w)
    | some _ =>
        (true, { st with isDirty := false },
          { w with files := delBlob w.files st.path })

/-- `StorageBigAkaFileSys::exists()`: `false` when unmounted, else
`LittleFS.exists(path)`. -/
def StorageBigAkaFileSys.fileExists (st : StorageBigAkaFileSys)
    (w : FSWorld) : Bool :=
  if st.fsMounted = false then false else (getBlob w.files st.path).isSome

/-- `StorageBigAkaFileSys::setDebounceEnabled(enabled)`. -/
def StorageBigAkaFileSys.setDebounceEnabled (st : StorageBigAkaFileSys)
    (b : Bool) : StorageBigAkaFileSys :=
  { st with debounceEnabled := b }

/-- One public operation on a record-store instance, for stating
invariants over arbitrary call sequences. -/
inductive FSOp where
  | opUpdate
  | opTick
  | opFlush
  | opSave
  | opRemove
  | opLoad (resetFunc : Option (List Nat → List Nat))
  | opSetDebounce (b : Bool)
  | opExists

/-- The store/world effect of one public operation (results that the
source discards are discarded here too). -/
def StorageBigAkaFileSys.step (st : StorageBigAkaFileSys) (w : FSWorld)
    (env : FSEnv) : FSOp → StorageBigAkaFileSys × FSWorld
  | .opUpdate => st.update w env
  | .opTick => st.tick w env
  | .opFlush => (st.flush w env).2
  | .opSave => (st.save w env).2
  | .opRemove => (st.remove w).2
  | .opLoad rf => (st.load w env rf).2
  | .opSetDebounce b => (st.setDebounceEnabled b, w)
  | .opExists => (st, w)

/-- A sample NVS store instance (namespace as in `test_debug/main.cpp`). -/
def exNvsStore : StorageSmallAkaNVS := { ns := "npspcTest" }

/-- A sample environment where every platform call succeeds. -/
def exNvsEnv : NVSEnv := { beginOk := true, writeOk := true, now := 5000 }

/-- A sample environment whose `putBytes` does not reach full length. -/
def exNvsEnvShortWrite : NVSEnv :=
  { beginOk := true, writeOk := false, now := 5000 }

/-- A sample record-store environment where every platform call succeeds. -/
def exFsEnv : FSEnv :=
  { now := 9000, freeBytes := 100000, openWriteOk := true, writeOk := true,
    shortLen := 0 }

/-- A sample dirty, mounted record-store instance. -/
def exFsDirty : StorageBigAkaFileSys :=
  { path := "/cfg", data := [0], intervalMs := 5000, lastChangeTime := 0,
    isDirty := true, fsMounted := true, debounceEnabled := true }

/-- A sample clean, mounted record-store instance. -/
def exFsClean : StorageBigAkaFileSys := { exFsDirty with isDirty := false }

/-- A sample record-store instance constructed while the filesystem was
not mounted. -/
def exFsUnmounted : StorageBigAkaFileSys :=
  { path := "/u", data := [1], intervalMs := 5000, isDirty := true,
    fsMounted := false }

/-- A store of a second stored type (`typeTag = 1`), dirty and
mounted. -/
def exFsOtherType : StorageBigAkaFileSys :=
  { path := "/other", data := [2], intervalMs := 5000, isDirty := true,
    fsMounted := true, typeTag := 1 }

/-- An empty LittleFS directory with every OTA flag clear. -/
def exWorld : FSWorld := { files := [], otaFlags := [] }

/-- An empty LittleFS directory with the OTA flag of type tag 0 set. -/
def exWorldOta : FSWorld := { files := [], otaFlags := [0] }

/-- A directory holding a three-byte file at `/cfg` (too short even for
the CRC field), every OTA flag clear. -/
def exWorldFile : FSWorld :=
  { files := [("/cfg", [5, 6, 7])], otaFlags := [] }

/-- A directory holding a four-byte file at `/cfg` (a CRC field but a
short payload), every OTA flag clear. -/
def exWorldFile4 : FSWorld :=
  { files := [("/cfg", [9, 9, 9, 9])], otaFlags := [] }

/-- A directory holding a file at `/cfg` whose stored CRC (zero) does
not match its one-byte payload `[7]`, every OTA flag clear. -/
def exWorldFileBadCrc : FSWorld :=
  { files := [("/cfg", [0, 0, 0, 0, 7])], otaFlags := [] }

theorem getBlob_setBlob_self (bs : List (String × List Nat)) (k : String)
    (v : List Nat) : getBlob (setBlob bs k v) k = some v := by
  induction bs with
  | nil => simp [setBlob, getBlob]
  | cons hd tl ih =>
      obtain ⟨k1, v1⟩ := hd
      by_cases h : k1 = k <;> simp [setBlob, getBlob, h, ih]

theorem crc32Round_lt (c : Nat) (h : c < U32MOD) : crc32Round c < U32MOD := by
  unfold crc32Round
  split
  · exact Nat.mod_lt _ (by norm_num [U32MOD])
  · exact Nat.lt_of_le_of_lt (Nat.div_le_self c 2) h

theorem crc32Round_iter_lt (n c : Nat) (h : c < U32MOD) :
    crc32Round^[n] c < U32MOD := by
  induction n generalizing c with
  | zero => simpa using h
  | succ m ih =>
      rw [Function.iterate_succ_apply]
      exact ih _ (crc32Round_lt c h)

theorem crc32FeedByte_lt (c b : Nat) : crc32FeedByte c b < U32MOD :=
  crc32Round_iter_lt 8 _ (Nat.mod_lt _ (by norm_num [U32MOD]))

theorem crc32_foldl_lt (bs : List Nat) (c : Nat) (h : c < U32MOD) :
    bs.foldl crc32FeedByte c < U32MOD := by
  induction bs generalizing c with
  | nil => simpa using h
  | cons b tl ih => exact ih _ (crc32FeedByte_lt c b)

theorem xor_u32max_lt (x : Nat) (h : x < U32MOD) :
    x ^^^ UINT32_MAX < U32MOD := by
  have h32 : U32MOD = 2 ^ 32 := by norm_num [U32MOD]
  rw [h32] at h ⊢
  exact Nat.xor_lt_two_pow h (by norm_num [UINT32_MAX])

theorem crc32_le_lt (init : Nat) (bytes : List Nat) :
    crc32_le init bytes < U32MOD := by
  unfold crc32_le
  exact xor_u32max_lt _
    (crc32_foldl_lt bytes _
      (xor_u32max_lt _ (Nat.mod_lt _ (by norm_num [U32MOD]))))

theorem pkg_version_toBytes (v a b c crc : Nat) (data : List Nat) :
    Package.version (Package.toBytes v [a, b, c] crc data) = v % 256 := rfl

theorem pkg_crc_toBytes (v a b c crc : Nat) (data : List Nat) :
    Package.crc (Package.toBytes v [a, b, c] crc data) = crc % U32MOD := by
  have h : crc % U32MOD < U32MOD := Nat.mod_lt _ (by norm_num [U32MOD])
  simp only [Package.crc, Package.toBytes, u32ToBytesLE, u32FromBytesLE,
    List.cons_append, List.nil_append, List.getD_cons_succ, List.getD_cons_zero]
  unfold U32MOD at h ⊢
  omega

theorem pkg_data_toBytes (v a b c crc : Nat) (data : List Nat) :
    Package.data (Package.toBytes v [a, b, c] crc data) = data := rfl

theorem toBytes_length (v a b c crc : Nat) (data : List Nat) :
    (Package.toBytes v [a, b, c] crc data).length = 8 + data.length := by
  simp [Package.toBytes, u32ToBytesLE]
  omega

theorem save_ok_prefs (s : StorageSmallAkaNVS)
    (prefs : List (String × List Nat)) (env : NVSEnv) (key : String)
    (data : List Nat) (version : Nat) (reserved : List Nat) (force : Bool)
    (hok : (s.save prefs env key data version reserved force).result = .ok) :
    (s.save prefs env key data version reserved force).prefs
      = setBlob prefs key
          (Package.toBytes version reserved (crc32_le 0 data) data) := by
  unfold StorageSmallAkaNVS.save at hok ⊢
  split_ifs at hok ⊢ <;> simp_all

/-- C1: on the small-value (NVS) store, if `save(key, x, v)` reports
success, a subsequent `load(key, y, v)` against the resulting namespace
contents, with no intervening writes to that key, reports success and
returns payload bytes identical to `x`. -/
theorem nvs_roundtrip_after_save (s : StorageSmallAkaNVS)
    (prefs : List (String × List Nat)) (env : NVSEnv) (key : String)
    (data : List Nat) (version : Nat) (reserved : List Nat) (force : Bool)
    (dataIn : List Nat) (hres : reserved.length = 3)
    (hlen : dataIn.length = data.length)
    (hok : (s.save prefs env key data version reserved force).result = .ok) :
    StorageSmallAkaNVS.load
        (s.save prefs env key data version reserved force).prefs true key
        dataIn version
      = (.ok, data, (s.save prefs env key data version reserved force).prefs) := by
  obtain ⟨a, b, c, rfl⟩ := List.length_eq_three.mp hres
  have hp := save_ok_prefs s prefs env key data version [a, b, c] force hok
  rw [hp]
  simp only [StorageSmallAkaNVS.load]
  rw [hlen]
  have hget : prefsGetBytes
      (setBlob prefs key
        (Package.toBytes version [a, b, c] (crc32_le 0 data) data)) key
      (8 + data.length)
      = Package.toBytes version [a, b, c] (crc32_le 0 data) data := by
    unfold prefsGetBytes
    rw [getBlob_setBlob_self]
    simp [toBytes_length]
  simp only [hget, toBytes_length, pkg_version_toBytes, pkg_crc_toBytes,
    pkg_data_toBytes, Nat.mod_eq_of_lt (crc32_le_lt 0 data)]
  simp

/-- Witness for C1 at a concrete store, key and payload. -/
theorem nvs_roundtrip_after_save_witness :
    StorageSmallAkaNVS.load
        (exNvsStore.save [] exNvsEnv "bool" [1, 2, 3] 1 [0, 0, 0] false).prefs
        true "bool" [9, 9, 9] 1
      = (.ok, [1, 2, 3],
          (exNvsStore.save [] exNvsEnv "bool" [1, 2, 3] 1 [0, 0, 0] false).prefs) :=
  nvs_roundtrip_after_save exNvsStore [] exNvsEnv "bool" [1, 2, 3] 1 [0, 0, 0]
    false [9, 9, 9] (by decide) (by decide) (by decide)

/-- C3: the NVS `load` validates in order — byte count, then version
tag, then CRC-32 over the payload region only — short-circuiting at
the first failure, and copies the payload into the caller's variable
exactly when all three checks pass. -/
theorem nvs_load_check_order (prefs : List (String × List Nat))
    (key : String) (dataIn : List Nat) (v : Nat) :
    ((StorageSmallAkaNVS.load prefs true key dataIn v).1 = .sizeMismatch ↔
      (prefsGetBytes prefs key (8 + dataIn.length)).length ≠ 8 + dataIn.length)
    ∧ ((StorageSmallAkaNVS.load prefs true key dataIn v).1 = .versionMismatch ↔
      (prefsGetBytes prefs key (8 + dataIn.length)).length = 8 + dataIn.length
      ∧ Package.version (prefsGetBytes prefs key (8 + dataIn.length)) ≠ v % 256)
    ∧ ((StorageSmallAkaNVS.load prefs true key dataIn v).1 = .crcMismatch ↔
      (prefsGetBytes prefs key (8 + dataIn.length)).length = 8 + dataIn.length
      ∧ Package.version (prefsGetBytes prefs key (8 + dataIn.length)) = v % 256
      ∧ Package.crc (prefsGetBytes prefs key (8 + dataIn.length))
          ≠ crc32_le 0 (Package.data (prefsGetBytes prefs key (8 + dataIn.length))))
    ∧ ((StorageSmallAkaNVS.load prefs true key dataIn v).1 = .ok ↔
      (prefsGetBytes prefs key (8 + dataIn.length)).length = 8 + dataIn.length
      ∧ Package.version (prefsGetBytes prefs key (8 + dataIn.length)) = v % 256
      ∧ Package.crc (prefsGetBytes prefs key (8 + dataIn.length))
          = crc32_le 0 (Package.data (prefsGetBytes prefs key (8 + dataIn.length))))
    ∧ ((StorageSmallAkaNVS.load prefs true key dataIn v).1 ≠ .ok →
      (StorageSmallAkaNVS.load prefs true key dataIn v).2.1 = dataIn)
    ∧ ((StorageSmallAkaNVS.load prefs true key dataIn v).1 = .ok →
      (StorageSmallAkaNVS.load prefs true key dataIn v).2.1
        = Package.data (prefsGetBytes prefs key (8 + dataIn.length))) := by
  simp only [StorageSmallAkaNVS.load]
  split_ifs <;> simp_all

/-- Witness for C3: against an empty namespace the size check is the
one that fires, and the caller's variable is untouched. -/
theorem nvs_load_check_order_witness :
    (StorageSmallAkaNVS.load [] true "int" [7] 1).1 = .sizeMismatch
    ∧ (StorageSmallAkaNVS.load [] true "int" [7] 1).2.1 = [7] :=
  ⟨(nvs_load_check_order [] "int" [7] 1).1.mpr (by decide),
   (nvs_load_check_order [] "int" [7] 1).2.2.2.2.1 (by decide)⟩

/-- C9: an NVS `load` that fails — key absent, size mismatch, version
mismatch, checksum mismatch, or namespace-open failure — leaves the
caller's variable untouched, and no `load` (failing or not) writes to
the namespace: there is no reset-and-rewrite on the load path. -/
theorem nvs_load_failure_pure (prefs : List (String × List Nat))
    (beginOk : Bool) (key : String) (dataIn : List Nat) (v : Nat) :
    (StorageSmallAkaNVS.load prefs beginOk key dataIn v).2.2 = prefs
    ∧ ((StorageSmallAkaNVS.load prefs beginOk key dataIn v).1 ≠ .ok →
      (StorageSmallAkaNVS.load prefs beginOk key dataIn v).2.1 = dataIn) := by
  simp only [StorageSmallAkaNVS.load]
  split_ifs <;> simp_all

/-- Witness for C9: a failing load of an absent key returns the
caller's variable unchanged. -/
theorem nvs_load_failure_pure_witness :
    (StorageSmallAkaNVS.load [] true "wifi" [4, 5] 1).2.1 = [4, 5] :=
  (nvs_load_failure_pure [] true "wifi" [4, 5] 1).2 (by decide)

/-- C7 counterexample: at `now = 0`, `last = 1` the computed elapsed
time is `2 ^ 32 - 2`, one less than the modular difference
`(now - last) mod 2 ^ 32 = 2 ^ 32 - 1`. -/
theorem elapsed_wrap_off_by_one_cex :
    StorageSmallAkaNVS.elapsedMs 0 1 = U32MOD - 2
    ∧ (0 + U32MOD - 1) % U32MOD = U32MOD - 1
    ∧ StorageSmallAkaNVS.elapsedMs 0 1 ≠ (0 + U32MOD - 1) % U32MOD := by
  decide

/-- C7 amended: the NVS throttle and the record-store debounce compute
the same elapsed-time function; it equals the modular difference
`(now - last) mod 2 ^ 32` when `now ≥ last`, and falls short of it by
exactly one when `now < last` (the wrap branch uses `UINT32_MAX`
instead of `2 ^ 32`). -/
theorem elapsed_wrap_value_amended (now last : Nat) (hn : now < U32MOD)
    (hl : last < U32MOD) :
    StorageSmallAkaNVS.elapsedMs now last
        = StorageBigAkaFileSys.elapsedMs now last
    ∧ (last ≤ now →
        StorageSmallAkaNVS.elapsedMs now last = (now + U32MOD - last) % U32MOD)
    ∧ (now < last →
        StorageSmallAkaNVS.elapsedMs now last + 1
          = (now + U32MOD - last) % U32MOD) := by
  unfold StorageSmallAkaNVS.elapsedMs StorageBigAkaFileSys.elapsedMs
  unfold UINT32_MAX U32MOD at *
  refine ⟨rfl, ?_, ?_⟩ <;> intro h <;> split_ifs <;> omega

/-- Witness for the amended C7 on both sides of the wrap. -/
theorem elapsed_wrap_value_amended_witness :
    StorageSmallAkaNVS.elapsedMs 5 3 = (5 + U32MOD - 3) % U32MOD
    ∧ StorageSmallAkaNVS.elapsedMs 3 5 + 1 = (3 + U32MOD - 5) % U32MOD :=
  ⟨(elapsed_wrap_value_amended 5 3 (by decide) (by decide)).2.1 (by decide),
   (elapsed_wrap_value_amended 3 5 (by decide) (by decide)).2.2 (by decide)⟩

/-- C8 counterexample: gates passed but `putBytes` fell short — the
save fails, yet `_lastSaveTime` has advanced from 0 to `now = 5000`. -/
theorem failed_write_advances_timestamp_cex :
    (exNvsStore.save [] exNvsEnvShortWrite "int" [1] 1 [0, 0, 0] false).result
        = .writeFail
    ∧ (exNvsStore.save [] exNvsEnvShortWrite "int" [1] 1
        [0, 0, 0] false).store.lastSaveTime = 5000
    ∧ exNvsStore.lastSaveTime = 0 := by
  decide

/-- C8 amended: with the size gate passed, a non-forced save advances
`_lastSaveTime` to `now` exactly when the rate-limit gate passes —
before and regardless of the write's outcome; success is reported only
when the namespace opens and the write completes at full length; a
forced save never advances the timestamp. -/
theorem save_timestamp_advance_amended (s : StorageSmallAkaNVS)
    (prefs : List (String × List Nat)) (env : NVSEnv) (key : String)
    (data : List Nat) (version : Nat) (reserved : List Nat)
    (hsize : 8 + data.length ≤ NVS_MAX_SIZE) :
    (s.minSaveInterval ≤ StorageSmallAkaNVS.elapsedMs env.now s.lastSaveTime →
      (s.save prefs env key data version reserved false).store.lastSaveTime
        = env.now)
    ∧ (StorageSmallAkaNVS.elapsedMs env.now s.lastSaveTime < s.minSaveInterval →
      (s.save prefs env key data version reserved false).result = .throttled
      ∧ (s.save prefs env key data version reserved false).store = s)
    ∧ ((s.save prefs env key data version reserved false).result = .ok ↔
      s.minSaveInterval ≤ StorageSmallAkaNVS.elapsedMs env.now s.lastSaveTime
      ∧ env.beginOk = true ∧ env.writeOk = true)
    ∧ (s.save prefs env key data version reserved true).store.lastSaveTime
        = s.lastSaveTime := by
  simp only [StorageSmallAkaNVS.save]
  split_ifs <;> simp_all <;> omega

/-- Witness for the amended C8: a passing gate advances the timestamp
even though the write then fails. -/
theorem save_timestamp_advance_amended_witness :
    (exNvsStore.save [] exNvsEnvShortWrite "int" [1] 1
        [0, 0, 0] false).store.lastSaveTime = exNvsEnvShortWrite.now :=
  (save_timestamp_advance_amended exNvsStore [] exNvsEnvShortWrite "int" [1] 1
    [0, 0, 0] (by decide)).1 (by decide)

theorem fs_save_ok_files (st : StorageBigAkaFileSys) (w : FSWorld)
    (env : FSEnv) (h : (st.save w env).1 = .ok) :
    ((st.save w env).2.2).files
      = setBlob w.files st.path (StorageBigAkaFileSys.frameBytes st.data) := by
  simp only [StorageBigAkaFileSys.save] at h ⊢
  split_ifs at h ⊢ <;> simp_all

theorem fs_save_ok_store (st : StorageBigAkaFileSys) (w : FSWorld)
    (env : FSEnv) (h : (st.save w env).1 = .ok) :
    (st.save w env).2.1 = { st with isDirty := false } := by
  simp only [StorageBigAkaFileSys.save] at h ⊢
  split_ifs at h ⊢ <;> simp_all

theorem fs_save_not_ok_store (st : StorageBigAkaFileSys) (w : FSWorld)
    (env : FSEnv) (h : (st.save w env).1 ≠ .ok) :
    (st.save w env).2.1 = st := by
  simp only [StorageBigAkaFileSys.save] at h ⊢
  split_ifs at h ⊢ <;> simp_all

theorem fs_save_store_fsMounted (st : StorageBigAkaFileSys) (w : FSWorld)
    (env : FSEnv) : ((st.save w env).2.1).fsMounted = st.fsMounted := by
  simp only [StorageBigAkaFileSys.save]
  split_ifs <;> rfl

theorem fs_save_unmounted (st : StorageBigAkaFileSys) (w : FSWorld)
    (env : FSEnv) (h : st.fsMounted = false) :
    (st.save w env).1 ≠ .ok ∧ (st.save w env).2.1 = st
      ∧ (st.save w env).2.2 = w := by
  simp only [StorageBigAkaFileSys.save]
  split_ifs <;> simp_all

/-- C2 counterexample: a successful record-store save writes a file of
`4 + sizeof(T)` bytes — CRC then payload, no version or reserved
bytes — not the claimed `8 + sizeof(T)`. -/
theorem fs_frame_not_versioned_cex :
    (exFsDirty.save exWorld exFsEnv).1 = .ok
    ∧ getBlob ((exFsDirty.save exWorld exFsEnv).2.2).files "/cfg"
        = some (StorageBigAkaFileSys.frameBytes [0])
    ∧ (StorageBigAkaFileSys.frameBytes [0]).length = 4 + 1
    ∧ (StorageBigAkaFileSys.frameBytes [0]).length ≠ 8 + 1 := by
  decide

/-- C2 amended: the NVS store frames records as version (1 byte),
reserved (3 bytes), checksum (4 bytes little-endian), then payload, for
exactly `8 + sizeof(T)` bytes; that is what a successful NVS save
stores, and the NVS load compares the stored byte count against exactly
this total — it fails with the size mismatch precisely when the count
differs from `8 + sizeof(T)`, and succeeds only at that exact count.
The Record (file) store instead writes checksum (4 bytes little-endian)
then payload, for exactly `4 + sizeof(T)` bytes. -/
theorem frame_layouts_amended (version crc a b c : Nat) (data : List Nat)
    (s : StorageSmallAkaNVS) (prefs : List (String × List Nat))
    (env : NVSEnv) (key : String) (force : Bool) (dataIn : List Nat)
    (st : StorageBigAkaFileSys) (w : FSWorld) (fenv : FSEnv) :
    (Package.toBytes version [a, b, c] crc data).length = 8 + data.length
    ∧ Package.toBytes version [a, b, c] crc data
        = version % 256 :: [a, b, c] ++ u32ToBytesLE (crc % U32MOD) ++ data
    ∧ (StorageBigAkaFileSys.frameBytes data).length = 4 + data.length
    ∧ StorageBigAkaFileSys.frameBytes data
        = u32ToBytesLE (crc32_le 0 data) ++ data
    ∧ ((s.save prefs env key data version [a, b, c] force).result = .ok →
        getBlob (s.save prefs env key data version [a, b, c] force).prefs key
          = some (Package.toBytes version [a, b, c] (crc32_le 0 data) data))
    ∧ ((st.save w fenv).1 = .ok →
        getBlob ((st.save w fenv).2.2).files st.path
          = some (StorageBigAkaFileSys.frameBytes st.data))
    ∧ ((StorageSmallAkaNVS.load prefs true key dataIn version).1
          = .sizeMismatch ↔
        (prefsGetBytes prefs key (8 + dataIn.length)).length
          ≠ 8 + dataIn.length)
    ∧ ((StorageSmallAkaNVS.load prefs true key dataIn version).1 = .ok →
        (prefsGetBytes prefs key (8 + dataIn.length)).length
          = 8 + dataIn.length) := by
  refine ⟨toBytes_length version a b c crc data, rfl, ?_, rfl, ?_, ?_, ?_, ?_⟩
  · simp [StorageBigAkaFileSys.frameBytes, u32ToBytesLE]
    omega
  · intro h
    rw [save_ok_prefs s prefs env key data version [a, b, c] force h,
      getBlob_setBlob_self]
  · intro h
    rw [fs_save_ok_files st w fenv h, getBlob_setBlob_self]
  · simp only [StorageSmallAkaNVS.load]
    split_ifs <;> simp_all
  · simp only [StorageSmallAkaNVS.load]
    split_ifs <;> simp_all

/-- Witness for the amended C2: concrete saves on both stores, and the
NVS load size gate firing against an empty namespace. -/
theorem frame_layouts_amended_witness :
    getBlob (exNvsStore.save [] exNvsEnv "int" [4] 1 [0, 0, 0] false).prefs "int"
        = some (Package.toBytes 1 [0, 0, 0] (crc32_le 0 [4]) [4])
    ∧ getBlob ((exFsClean.save exWorldFile exFsEnv).2.2).files exFsClean.path
        = some (StorageBigAkaFileSys.frameBytes exFsClean.data)
    ∧ (StorageSmallAkaNVS.load [] true "int" [9, 9] 1).1 = .sizeMismatch :=
  ⟨(frame_layouts_amended 1 (crc32_le 0 [4]) 0 0 0 [4] exNvsStore [] exNvsEnv
      "int" false [9, 9] exFsClean exWorldFile exFsEnv).2.2.2.2.1 (by decide),
   (frame_layouts_amended 1 (crc32_le 0 [4]) 0 0 0 [4] exNvsStore [] exNvsEnv
      "int" false [9, 9] exFsClean exWorldFile exFsEnv).2.2.2.2.2.1
      (by decide),
   (frame_layouts_amended 1 (crc32_le 0 [4]) 0 0 0 [4] exNvsStore [] exNvsEnv
      "int" false [9, 9] exFsClean exWorldFile exFsEnv).2.2.2.2.2.2.1.mpr
      (by decide)⟩

/-- C4 counterexample: a load on an unmounted instance reports failure
but does not invoke the default-population routine (`_data` stays
`[1]`, not the routine's `[7]`) and performs no write. -/
theorem fs_load_unmounted_no_reset_cex :
    exFsUnmounted.load exWorld exFsEnv (some fun _ => [7])
        = (.notMounted, exFsUnmounted, exWorld)
    ∧ exFsUnmounted.data = [1] := by
  exact ⟨rfl, rfl⟩

/-- C4 amended: the constructor only samples the mount status and never
loads.  An explicit `load()` on an unmounted instance reports failure
without invoking the default-population routine and without writing.
A `load()` on a mounted instance that fails for any codec reason —
file absent, short read of the CRC field, short read of the payload,
or checksum mismatch — invokes the routine on the in-memory value,
attempts an immediate write (shown here succeeding), and still reports
the load as failed. -/
theorem fs_load_failure_paths_amended (st : StorageBigAkaFileSys)
    (w : FSWorld) (env : FSEnv) (f : List Nat → List Nat)
    (content : List Nat) :
    (st.fsMounted = false →
      st.load w env (some f) = (.notMounted, st, w))
    ∧ (st.fsMounted = true → getBlob w.files st.path = none →
      StorageBigAkaFileSys.isOtaRunning w st.typeTag = false →
      StorageBigAkaFileSys.hasSpace (f st.data).length env.freeBytes = true →
      env.openWriteOk = true → env.writeOk = true →
      (st.load w env (some f)).1 = .notFound
      ∧ ((st.load w env (some f)).2.1).data = f st.data
      ∧ getBlob ((st.load w env (some f)).2.2).files st.path
          = some (StorageBigAkaFileSys.frameBytes (f st.data)))
    ∧ (st.fsMounted = true → getBlob w.files st.path = some content →
      content.length < 4 →
      StorageBigAkaFileSys.isOtaRunning w st.typeTag = false →
      StorageBigAkaFileSys.hasSpace (f st.data).length env.freeBytes = true →
      env.openWriteOk = true → env.writeOk = true →
      (st.load w env (some f)).1 = .readError
      ∧ ((st.load w env (some f)).2.1).data = f st.data
      ∧ getBlob ((st.load w env (some f)).2.2).files st.path
          = some (StorageBigAkaFileSys.frameBytes (f st.data)))
    ∧ (st.fsMounted = true → getBlob w.files st.path = some content →
      4 ≤ content.length →
      ((content.drop 4).take st.data.length).length ≠ st.data.length →
      StorageBigAkaFileSys.isOtaRunning w st.typeTag = false →
      StorageBigAkaFileSys.hasSpace
          (f ((content.drop 4).take st.data.length
            ++ st.data.drop
                ((content.drop 4).take st.data.length).length)).length
          env.freeBytes = true →
      env.openWriteOk = true → env.writeOk = true →
      (st.load w env (some f)).1 = .readError
      ∧ ((st.load w env (some f)).2.1).data
          = f ((content.drop 4).take st.data.length
              ++ st.data.drop
                  ((content.drop 4).take st.data.length).length)
      ∧ getBlob ((st.load w env (some f)).2.2).files st.path
          = some (StorageBigAkaFileSys.frameBytes
              (f ((content.drop 4).take st.data.length
                ++ st.data.drop
                    ((content.drop 4).take st.data.length).length))))
    ∧ (st.fsMounted = true → getBlob w.files st.path = some content →
      4 ≤ content.length →
      ((content.drop 4).take st.data.length).length = st.data.length →
      crc32_le 0 ((content.drop 4).take st.data.length)
          ≠ u32FromBytesLE content 0 →
      StorageBigAkaFileSys.isOtaRunning w st.typeTag = false →
      StorageBigAkaFileSys.hasSpace
          (f ((content.drop 4).take st.data.length)).length
          env.freeBytes = true →
      env.openWriteOk = true → env.writeOk = true →
      (st.load w env (some f)).1 = .crcError
      ∧ ((st.load w env (some f)).2.1).data
          = f ((content.drop 4).take st.data.length)
      ∧ getBlob ((st.load w env (some f)).2.2).files st.path
          = some (StorageBigAkaFileSys.frameBytes
              (f ((content.drop 4).take st.data.length)))) := by
  refine ⟨?_, ?_, ?_, ?_, ?_⟩
  · intro h
    simp [StorageBigAkaFileSys.load, h]
  · intro h1 h2 h3 h4 h5 h6
    simp only [StorageBigAkaFileSys.load, StorageBigAkaFileSys.save,
      applyReset]
    simp_all [getBlob_setBlob_self]
  · intro h1 h2 hlt h3 h4 h5 h6
    simp only [StorageBigAkaFileSys.load, StorageBigAkaFileSys.save,
      applyReset]
    simp_all [getBlob_setBlob_self]
  · intro h1 h2 hge hne h3 h4 h5 h6
    have hnlt : ¬ content.length < 4 := Nat.not_lt.mpr hge
    simp only [StorageBigAkaFileSys.load, StorageBigAkaFileSys.save,
      applyReset, h2, if_neg hnlt]
    simp_all [getBlob_setBlob_self]
  · intro h1 h2 hge hlen hcrc h3 h4 h5 h6
    have hnlt : ¬ content.length < 4 := Nat.not_lt.mpr hge
    simp only [StorageBigAkaFileSys.load, StorageBigAkaFileSys.save,
      applyReset, h2, if_neg hnlt]
    simp_all [getBlob_setBlob_self]

/-- Witness for the amended C4 on all five branches: unmounted, file
absent, CRC field cut short, payload cut short, checksum mismatch. -/
theorem fs_load_failure_paths_amended_witness :
    exFsUnmounted.load exWorld exFsEnv (some fun d => d)
        = (.notMounted, exFsUnmounted, exWorld)
    ∧ (exFsClean.load exWorld exFsEnv (some fun _ => [3])).1 = .notFound
    ∧ (exFsClean.load exWorldFile exFsEnv (some fun _ => [3])).1 = .readError
    ∧ (exFsClean.load exWorldFile4 exFsEnv (some fun _ => [3])).1 = .readError
    ∧ (exFsClean.load exWorldFileBadCrc exFsEnv (some fun _ => [3])).1
        = .crcError :=
  ⟨(fs_load_failure_paths_amended exFsUnmounted exWorld exFsEnv
      (fun d => d) []).1 (by decide),
   ((fs_load_failure_paths_amended exFsClean exWorld exFsEnv
      (fun _ => [3]) []).2.1 (by decide) (by decide) (by decide) (by decide)
      (by decide) (by decide)).1,
   ((fs_load_failure_paths_amended exFsClean exWorldFile exFsEnv
      (fun _ => [3]) [5, 6, 7]).2.2.1 (by decide) (by decide) (by decide)
      (by decide) (by decide) (by decide) (by decide)).1,
   ((fs_load_failure_paths_amended exFsClean exWorldFile4 exFsEnv
      (fun _ => [3]) [9, 9, 9, 9]).2.2.2.1 (by decide) (by decide)
      (by decide) (by decide) (by decide) (by decide) (by decide)
      (by decide)).1,
   ((fs_load_failure_paths_amended exFsClean exWorldFileBadCrc exFsEnv
      (fun _ => [3]) [0, 0, 0, 0, 7]).2.2.2.2 (by decide) (by decide)
      (by decide) (by decide) (by decide) (by decide) (by decide)
      (by decide) (by decide)).1⟩

theorem isOta_setOta_true_self (w : FSWorld) (tag : Nat) :
    StorageBigAkaFileSys.isOtaRunning
      (StorageBigAkaFileSys.setOtaRunning w tag true) tag = true := by
  simp [StorageBigAkaFileSys.isOtaRunning,
    StorageBigAkaFileSys.setOtaRunning]

theorem isOta_setOta_true_other (w : FSWorld) (tag tag2 : Nat)
    (h : tag2 ≠ tag) :
    StorageBigAkaFileSys.isOtaRunning
        (StorageBigAkaFileSys.setOtaRunning w tag true) tag2
      = StorageBigAkaFileSys.isOtaRunning w tag2 := by
  simp [StorageBigAkaFileSys.isOtaRunning,
    StorageBigAkaFileSys.setOtaRunning, h]

/-- C5 counterexample: with the gate set for stored type tag 0, a
`flush()` on a clean tag-0 instance returns success rather than the
Blocked failure, and a `save()` on an instance of a different stored
type is not blocked at all — it succeeds and writes to media, because
`_otaRunning` is a static member of each template specialisation. -/
theorem ota_gate_not_universal_cex :
    StorageBigAkaFileSys.isOtaRunning exWorldOta exFsClean.typeTag = true
    ∧ (exFsClean.flush exWorldOta exFsEnv).1 = true
    ∧ StorageBigAkaFileSys.isOtaRunning exWorldOta exFsOtherType.typeTag
        = false
    ∧ (exFsOtherType.save exWorldOta exFsEnv).1 = .ok
    ∧ ((exFsOtherType.save exWorldOta exFsEnv).2.2).files
        ≠ exWorldOta.files := by
  decide

/-- C5 amended: `setOtaRunning(true)` on `StorageBigAkaFileSys<T>` sets
the flag of that specialisation only, leaving every other stored type's
flag unchanged.  While a type's flag is set, every `save()` on a store
of that type fails with the blocked outcome and every `flush()` on a
dirty store of that type fails, both leaving the media untouched; a
`flush()` on a clean store returns success without writing; and a
`save()` on a store whose own type's flag is clear is never blocked. -/
theorem ota_gate_blocks_writes_amended (st : StorageBigAkaFileSys)
    (w : FSWorld) (env : FSEnv) (tag tag2 : Nat)
    (hota : StorageBigAkaFileSys.isOtaRunning w st.typeTag = true) :
    st.save w env = (.blocked, st, w)
    ∧ (st.isDirty = true → st.flush w env = (false, st, w))
    ∧ (st.isDirty = false → st.flush w env = (true, st, w))
    ∧ (∀ st2 : StorageBigAkaFileSys,
        StorageBigAkaFileSys.isOtaRunning w st2.typeTag = false →
        (st2.save w env).1 ≠ .blocked)
    ∧ StorageBigAkaFileSys.isOtaRunning
        (StorageBigAkaFileSys.setOtaRunning w tag true) tag = true
    ∧ (tag2 ≠ tag →
        StorageBigAkaFileSys.isOtaRunning
            (StorageBigAkaFileSys.setOtaRunning w tag true) tag2
          = StorageBigAkaFileSys.isOtaRunning w tag2) := by
  have hs : st.save w env = (.blocked, st, w) := by
    simp [StorageBigAkaFileSys.save, hota]
  refine ⟨hs, ?_, ?_, ?_, isOta_setOta_true_self w tag,
    isOta_setOta_true_other w tag tag2⟩
  · intro h
    simp [StorageBigAkaFileSys.flush, h, hs]
  · intro h
    simp [StorageBigAkaFileSys.flush, h, hs]
  · intro st2 h2
    simp only [StorageBigAkaFileSys.save, h2]
    split_ifs <;> simp_all

/-- Witness for the amended C5: under the gate set for tag 0, a dirty
and a clean tag-0 instance, and an unblocked save on a tag-1
instance. -/
theorem ota_gate_blocks_writes_amended_witness :
    exFsDirty.save exWorldOta exFsEnv = (.blocked, exFsDirty, exWorldOta)
    ∧ exFsDirty.flush exWorldOta exFsEnv = (false, exFsDirty, exWorldOta)
    ∧ (exFsOtherType.save exWorldOta exFsEnv).1 ≠ .blocked :=
  ⟨(ota_gate_blocks_writes_amended exFsDirty exWorldOta exFsEnv 0 1
      (by decide)).1,
   (ota_gate_blocks_writes_amended exFsDirty exWorldOta exFsEnv 0 1
      (by decide)).2.1 rfl,
   (ota_gate_blocks_writes_amended exFsDirty exWorldOta exFsEnv 0 1
      (by decide)).2.2.2.1 exFsOtherType (by decide)⟩

theorem fs_save_clears_dirty_means_wrote (st : StorageBigAkaFileSys)
    (w : FSWorld) (env : FSEnv)
    (h : ((st.save w env).2.1).isDirty = false) (hd : st.isDirty = true) :
    getBlob ((st.save w env).2.2).files st.path
      = some (StorageBigAkaFileSys.frameBytes ((st.save w env).2.1).data) := by
  simp only [StorageBigAkaFileSys.save] at h ⊢
  split_ifs at h ⊢ <;> simp_all [getBlob_setBlob_self]

theorem fs_save_dirty_stays (st : StorageBigAkaFileSys) (w : FSWorld)
    (env : FSEnv) (h : st.isDirty = false) :
    ((st.save w env).2.1).isDirty = false := by
  simp only [StorageBigAkaFileSys.save]
  split_ifs <;> simp_all

theorem fs_save_isDirty_true_iff (st : StorageBigAkaFileSys) (w : FSWorld)
    (env : FSEnv) :
    (((st.save w env).2.1).isDirty = true) ↔
      ((st.save w env).1 ≠ .ok ∧ st.isDirty = true) := by
  simp only [StorageBigAkaFileSys.save]
  split_ifs <;> simp_all

/-- C6 counterexample: a successful `remove()` on a dirty instance
clears the dirty flag although no record was written — the file is
deleted, not rewritten. -/
theorem remove_clears_dirty_cex :
    exFsDirty.isDirty = true
    ∧ (exFsDirty.remove exWorldFile).1 = true
    ∧ ((exFsDirty.remove exWorldFile).2.1).isDirty = false
    ∧ ((exFsDirty.remove exWorldFile).2.2).files = [] := by
  decide

/-- C6 amended: over every public operation, the dirty flag goes
false→true only on `update()`, and goes true→false only when either a
byte-exact framed write was confirmed during the operation (the file
then holds the fresh frame of the in-memory value) or the operation was
a successful `remove()` of the backing file. -/
theorem dirty_flag_transitions_amended (st : StorageBigAkaFileSys)
    (w : FSWorld) (env : FSEnv) (op : FSOp) :
    (st.isDirty = false → ((st.step w env op).1).isDirty = true →
      op = FSOp.opUpdate)
    ∧ (st.isDirty = true → ((st.step w env op).1).isDirty = false →
      getBlob ((st.step w env op).2).files st.path
          = some (StorageBigAkaFileSys.frameBytes ((st.step w env op).1).data)
        ∨ op = FSOp.opRemove) := by
  cases op with
  | opUpdate =>
      refine ⟨fun _ _ => rfl, fun h1 h2 => ?_⟩
      simp only [StorageBigAkaFileSys.step, StorageBigAkaFileSys.update]
        at h2 ⊢
      split_ifs at h2 ⊢ <;>
        first
        | exact Or.inl (fs_save_clears_dirty_means_wrote _ w env h2 rfl)
        | simp_all
  | opTick =>
      constructor
      · intro h1 h2
        simp only [StorageBigAkaFileSys.step, StorageBigAkaFileSys.tick] at h2
        split_ifs at h2 <;> simp_all [fs_save_dirty_stays]
      · intro h1 h2
        simp only [StorageBigAkaFileSys.step, StorageBigAkaFileSys.tick]
          at h2 ⊢
        split_ifs at h2 ⊢ <;>
          first
          | exact Or.inl (fs_save_clears_dirty_means_wrote _ w env h2 h1)
          | simp_all
  | opFlush =>
      constructor
      · intro h1 h2
        simp only [StorageBigAkaFileSys.step, StorageBigAkaFileSys.flush] at h2
        split_ifs at h2 <;> simp_all [fs_save_dirty_stays]
      · intro h1 h2
        simp only [StorageBigAkaFileSys.step, StorageBigAkaFileSys.flush]
          at h2 ⊢
        split_ifs at h2 ⊢ <;>
          first
          | exact Or.inl (fs_save_clears_dirty_means_wrote _ w env h2 h1)
          | simp_all
  | opSave =>
      constructor
      · intro h1 h2
        simp only [StorageBigAkaFileSys.step] at h2
        rw [fs_save_dirty_stays st w env h1] at h2
        cases h2
      · intro h1 h2
        exact Or.inl (fs_save_clears_dirty_means_wrote st w env h2 h1)
  | opRemove =>
      constructor
      · intro h1 h2
        simp only [StorageBigAkaFileSys.step, StorageBigAkaFileSys.remove]
          at h2
        rcases hgb : getBlob w.files st.path with _ | v <;>
          simp only [hgb] at h2 <;> split_ifs at h2 <;> simp_all
      · intro _ _
        exact Or.inr rfl
  | opLoad rf =>
      constructor
      · intro h1 h2
        exfalso
        simp only [StorageBigAkaFileSys.step, StorageBigAkaFileSys.load] at h2
        split_ifs at h2 with hm
        · simp_all
        · rcases hgb : getBlob w.files st.path with _ | content <;>
            simp only [hgb] at h2
          · simp_all [fs_save_isDirty_true_iff]
          · split_ifs at h2 <;> simp_all [fs_save_isDirty_true_iff]
      · intro h1 h2
        simp only [StorageBigAkaFileSys.step, StorageBigAkaFileSys.load]
          at h2 ⊢
        split_ifs at h2 ⊢ with hm
        · simp_all
        · rcases hgb : getBlob w.files st.path with _ | content <;>
            simp only [hgb] at h2 ⊢
          · exact Or.inl (fs_save_clears_dirty_means_wrote _ w env h2 h1)
          · split_ifs at h2 ⊢ <;>
              first
              | exact Or.inl (fs_save_clears_dirty_means_wrote _ w env h2 h1)
              | simp_all
  | opSetDebounce b =>
      refine ⟨fun h1 h2 => ?_, fun h1 h2 => ?_⟩ <;>
        simp_all [StorageBigAkaFileSys.step,
          StorageBigAkaFileSys.setDebounceEnabled]
  | opExists =>
      refine ⟨fun h1 h2 => ?_, fun h1 h2 => ?_⟩ <;>
        simp_all [StorageBigAkaFileSys.step]

/-- Witness for the amended C6: the remove disjunct at a concrete dirty
instance whose file exists. -/
theorem dirty_flag_transitions_amended_witness :
    getBlob ((exFsDirty.step exWorldFile exFsEnv .opRemove).2).files
        exFsDirty.path
      = some (StorageBigAkaFileSys.frameBytes
          ((exFsDirty.step exWorldFile exFsEnv .opRemove).1).data)
    ∨ FSOp.opRemove = FSOp.opRemove :=
  (dirty_flag_transitions_amended exFsDirty exWorldFile exFsEnv
    .opRemove).2 (by decide) (by decide)

theorem fs_load_store_fsMounted (st : StorageBigAkaFileSys) (w : FSWorld)
    (env : FSEnv) (rf : Option (List Nat → List Nat)) :
    ((st.load w env rf).2.1).fsMounted = st.fsMounted := by
  simp only [StorageBigAkaFileSys.load]
  split_ifs with h
  · rfl
  · rcases hgb : getBlob w.files st.path with _ | content <;> simp only [hgb]
    · exact fs_save_store_fsMounted _ w env
    · split_ifs <;>
        first
        | exact fs_save_store_fsMounted _ w env
        | rfl

theorem fs_step_fsMounted (st : StorageBigAkaFileSys) (w : FSWorld)
    (env : FSEnv) (op : FSOp) :
    ((st.step w env op).1).fsMounted = st.fsMounted := by
  cases op with
  | opUpdate =>
      simp only [StorageBigAkaFileSys.step, StorageBigAkaFileSys.update]
      split_ifs
      · exact fs_save_store_fsMounted _ w env
      · rfl
  | opTick =>
      simp only [StorageBigAkaFileSys.step, StorageBigAkaFileSys.tick]
      split_ifs <;>
        first
        | exact fs_save_store_fsMounted _ w env
        | rfl
  | opFlush =>
      simp only [StorageBigAkaFileSys.step, StorageBigAkaFileSys.flush]
      split_ifs <;>
        first
        | exact fs_save_store_fsMounted _ w env
        | rfl
  | opSave => exact fs_save_store_fsMounted st w env
  | opRemove =>
      simp only [StorageBigAkaFileSys.step, StorageBigAkaFileSys.remove]
      split_ifs
      · rfl
      · rcases hgb : getBlob w.files st.path with _ | v <;>
          simp only [hgb] <;> rfl
  | opLoad rf => exact fs_load_store_fsMounted st w env rf
  | opSetDebounce b => rfl
  | opExists => rfl

theorem fs_step_world_unmounted (st : StorageBigAkaFileSys) (w : FSWorld)
    (env : FSEnv) (op : FSOp) (h : st.fsMounted = false) :
    (st.step w env op).2 = w := by
  cases op with
  | opUpdate =>
      simp only [StorageBigAkaFileSys.step, StorageBigAkaFileSys.update]
      split_ifs
      · exact (fs_save_unmounted
          { st with isDirty := true, lastChangeTime := env.now } w env h).2.2
      · rfl
  | opTick =>
      simp only [StorageBigAkaFileSys.step, StorageBigAkaFileSys.tick]
      split_ifs <;>
        first
        | exact (fs_save_unmounted _ w env h).2.2
        | rfl
  | opFlush =>
      simp only [StorageBigAkaFileSys.step, StorageBigAkaFileSys.flush]
      split_ifs <;>
        first
        | exact (fs_save_unmounted _ w env h).2.2
        | rfl
  | opSave => exact (fs_save_unmounted st w env h).2.2
  | opRemove => simp [StorageBigAkaFileSys.step, StorageBigAkaFileSys.remove, h]
  | opLoad rf => simp [StorageBigAkaFileSys.step, StorageBigAkaFileSys.load, h]
  | opSetDebounce b => rfl
  | opExists => rfl

/-- C10: a record-store instance samples the mount status only in its
constructor — no public operation ever updates the stored flag — and on
an instance whose flag is `false` every `load` fails touching nothing,
every `save` fails, `exists` and `remove` return `false`, a dirty
`flush` fails, and no operation whatsoever performs a media write, even
if the filesystem has been mounted since. -/
theorem fs_mount_flag_frozen (st : StorageBigAkaFileSys) (w : FSWorld)
    (env : FSEnv) (op : FSOp) (rf : Option (List Nat → List Nat)) :
    ((st.step w env op).1).fsMounted = st.fsMounted
    ∧ (st.fsMounted = false →
      (st.load w env rf).1 = .notMounted
      ∧ (st.load w env rf).2.1 = st
      ∧ (st.save w env).1 ≠ .ok
      ∧ st.fileExists w = false
      ∧ (st.remove w).1 = false
      ∧ (st.isDirty = true → (st.flush w env).1 = false)
      ∧ (st.step w env op).2 = w) := by
  refine ⟨fs_step_fsMounted st w env op, fun h => ?_⟩
  refine ⟨?_, ?_, (fs_save_unmounted st w env h).1, ?_, ?_, ?_,
    fs_step_world_unmounted st w env op h⟩
  · simp [StorageBigAkaFileSys.load, h]
  · simp [StorageBigAkaFileSys.load, h]
  · simp [StorageBigAkaFileSys.fileExists, h]
  · simp [StorageBigAkaFileSys.remove, h]
  · intro hd
    have hne := (fs_save_unmounted st w env h).1
    simp [StorageBigAkaFileSys.flush, hd, hne]

/-- Witness for C10 on a concrete unmounted instance, with the
filesystem contents mounted-and-populated afterwards. -/
theorem fs_mount_flag_frozen_witness :
    ((exFsUnmounted.step exWorldFile exFsEnv .opSave).1).fsMounted
        = exFsUnmounted.fsMounted
    ∧ (exFsUnmounted.load exWorldFile exFsEnv none).1 = .notMounted
    ∧ (exFsUnmounted.save exWorldFile exFsEnv).1 ≠ .ok
    ∧ exFsUnmounted.fileExists exWorldFile = false
    ∧ (exFsUnmounted.remove exWorldFile).1 = false
    ∧ (exFsUnmounted.flush exWorldFile exFsEnv).1 = false
    ∧ (exFsUnmounted.step exWorldFile exFsEnv .opSave).2 = exWorldFile :=
  ⟨(fs_mount_flag_frozen exFsUnmounted exWorldFile exFsEnv .opSave none).1,
   ((fs_mount_flag_frozen exFsUnmounted exWorldFile exFsEnv .opSave none).2
      rfl).1,
   ((fs_mount_flag_frozen exFsUnmounted exWorldFile exFsEnv .opSave none).2
      rfl).2.2.1,
   ((fs_mount_flag_frozen exFsUnmounted exWorldFile exFsEnv .opSave none).2
      rfl).2.2.2.1,
   ((fs_mount_flag_frozen exFsUnmounted exWorldFile exFsEnv .opSave none).2
      rfl).2.2.2.2.1,
   ((fs_mount_flag_frozen exFsUnmounted exWorldFile exFsEnv .opSave none).2
      rfl).2.2.2.2.2.1 rfl,
   ((fs_mount_flag_frozen exFsUnmounted exWorldFile exFsEnv .opSave none).2
      rfl).2.2.2.2.2.2⟩
